import Mathlib

/-!
Verification of the debug-deployment workflow of kubectl-rook-ceph
(`pkg/debug/start_debug.go`).

The Go code is a sequence of Kubernetes API calls.  We embed it shallowly:
an `ApiEnv` gives the response of every API call the code can make, and each
Go function becomes a Lean function from the environment to the list of API
calls it issues (its trace) together with its result.  Data types mirror the
fields of the Kubernetes objects that the source code actually touches.
-/

namespace RookDebug

/-- A liveness/startup probe.  The source never looks inside a probe, it only
sets the pointer to nil, so the content is irrelevant; we keep a single field
so the type is inhabited and distinguishable. -/
structure Probe where
  tag : String
deriving Repr, DecidableEq

/-- The fields of `corev1.Container` that `start_debug.go` reads or writes:
image, command, args, and the liveness/startup probe pointers (a Go nil
pointer is `none`). -/
structure Container where
  image : String
  command : List String
  args : List String
  livenessProbe : Option Probe
  startupProbe : Option Probe
deriving Repr, DecidableEq

/-- `corev1.PodSpec`, restricted to the container list. -/
structure PodSpec where
  containers : List Container
deriving Repr, DecidableEq

/-- `corev1.PodTemplateSpec`: template labels (read with Go map lookup,
which yields `""` for an absent key) and the pod spec. -/
structure PodTemplateSpec where
  labels : List (String × String)
  spec : PodSpec
deriving Repr, DecidableEq

/-- `appsv1.DeploymentSpec`, restricted to the pod template. -/
structure DeploymentSpec where
  template : PodTemplateSpec
deriving Repr, DecidableEq

/-- `appsv1.Deployment`: name, namespace, top-level labels and spec.  The
top-level label map is `Option` so that a nil Go map (writing to which
panics) is distinguishable from an empty one. -/
structure Deployment where
  name : String
  ns : String
  labels : Option (List (String × String))
  spec : DeploymentSpec
deriving Repr, DecidableEq

/-- `corev1.Pod`, restricted to what the workflow observes: the name and the
phase reported by the API. -/
structure Pod where
  name : String
  phase : String
deriving Repr, DecidableEq

/-- `autoscalingv1.Scale` as built by `SetDeploymentScale`: object meta name
and namespace, and the desired replica count. -/
structure Scale where
  name : String
  ns : String
  replicas : Int
deriving Repr, DecidableEq

/-- Go's `int32(n)` conversion: wrap into `[-2^31, 2^31)`. -/
def int32ofInt (n : Int) : Int :=
  (n + 2 ^ 31) % 2 ^ 32 - 2 ^ 31

/-- Go map read `m[k]` on a string map: the value if present, `""` (the zero
value) otherwise. -/
def lookupLabel (labels : List (String × String)) (key : String) : String :=
  match labels.find? (fun p => p.1 == key) with
  | some p => p.2
  | none => ""

/-- Go map write `m[k] = v`: replace the value of an existing key, otherwise
append the binding. -/
def setLabel (labels : List (String × String)) (key val : String) :
    List (String × String) :=
  if labels.any (fun p => p.1 == key) then
    labels.map (fun p => if p.1 == key then (p.1, val) else p)
  else
    labels ++ [(key, val)]

/-- In-place mutation `d.Spec.Template.Spec.Containers[0] = f(...)`.
Indexing an empty slice panics in Go, hence the `Option`. -/
def withFirstContainer (f : Container → Container) (d : Deployment) :
    Option Deployment :=
  match d.spec.template.spec.containers with
  | [] => none
  | c :: rest =>
      some { d with spec := { template := { d.spec.template with
               spec := { containers := f c :: rest } } } }

/-- One API call issued by the workflow, as recorded in the trace.
`waitForPodToRun` carries an occurrence index because the workflow invokes
the helper twice with identical arguments.  `sleepSeconds` records the
fixed-interval sleeps of the deletion poll. -/
inductive ApiCall where
  | getDeployment (ns name : String)
  | waitForPodToRun (occurrence : Nat) (ns labelSelector : String)
  | updateScale (ns name : String) (scale : Scale)
  | getPod (ns name : String)
  | createDeployment (ns : String) (d : Deployment)
  | sleepSeconds (s : Nat)
deriving Repr, DecidableEq

/-- The responses of the Kubernetes API (and of the out-of-scope
`k8sutil.WaitForPodToRun` helper) to each call the code can make.
`podGone ns name i` is `true` when the `Get` of pod `name` on polling
attempt `i` returns a not-found error. -/
structure ApiEnv where
  getDeployment : String → String → Except String Deployment
  waitForPodToRun : Nat → String → String → Except String Pod
  updateScale : String → String → Scale → Except String Unit
  podGone : String → String → Nat → Bool
  createDeployment : String → Deployment → Except String Deployment

/-- The result of `startDebug`: a returned error, a normal return, a call to
`logging.Fatal` from inside the function (final pod wait), or a Go runtime
panic (nil-map write or out-of-range index). -/
inductive Outcome where
  | ok
  | error (msg : String)
  | fatal (msg : String)
  | panic
deriving Repr, DecidableEq

/-- `GetDeployment`: a single `Deployments(ns).Get` call, whose error is
returned unwrapped. -/
def GetDeployment (env : ApiEnv) (clusterNamespace deploymentName : String) :
    List ApiCall × Except String Deployment :=
  ([ApiCall.getDeployment clusterNamespace deploymentName],
   env.getDeployment clusterNamespace deploymentName)

/-- The `autoscalingv1.Scale` object built by `SetDeploymentScale`
(lines 112-120): object meta carries the deployment name and namespace,
replicas is `int32(scaleCount)`. -/
def scaleObj (clusterNamespace deploymentName : String) (scaleCount : Int) :
    Scale :=
  { name := deploymentName, ns := clusterNamespace,
    replicas := int32ofInt scaleCount }

/-- `SetDeploymentScale`: build a `Scale` object (replicas is `int32` of the
requested count) and issue a single `UpdateScale`; wrap a failure with the
deployment name. -/
def SetDeploymentScale (env : ApiEnv)
    (clusterNamespace deploymentName : String) (scaleCount : Int) :
    List ApiCall × Except String Unit :=
  let scale := scaleObj clusterNamespace deploymentName scaleCount
  match env.updateScale clusterNamespace deploymentName scale with
  | Except.error e =>
      ([ApiCall.updateScale clusterNamespace deploymentName scale],
       Except.error ("failed to update scale of deployment " ++
         deploymentName ++ ". " ++ e ++ "\n"))
  | Except.ok _ =>
      ([ApiCall.updateScale clusterNamespace deploymentName scale],
       Except.ok ())

/-- The polling loop of `waitForPodDeletion`, with the remaining iteration
budget as fuel and `i` the index of the current attempt.  Each attempt that
does not observe not-found sleeps 5 seconds; exhausting the budget returns
the `failed to delete pod` error. -/
def waitForPodDeletionAux (env : ApiEnv) (clusterNamespace podName : String) :
    Nat → Nat → List ApiCall × Except String Unit
  | _, 0 => ([], Except.error ("failed to delete pod " ++ podName))
  | i, fuel + 1 =>
      if env.podGone clusterNamespace podName i then
        ([ApiCall.getPod clusterNamespace podName], Except.ok ())
      else
        let rest := waitForPodDeletionAux env clusterNamespace podName (i + 1) fuel
        (ApiCall.getPod clusterNamespace podName ::
           ApiCall.sleepSeconds 5 :: rest.1, rest.2)

/-- `waitForPodDeletion`: up to 60 `Pods(ns).Get` attempts at a fixed
5-second interval, succeeding on the first not-found response. -/
def waitForPodDeletion (env : ApiEnv) (clusterNamespace podName : String) :
    List ApiCall × Except String Unit :=
  waitForPodDeletionAux env clusterNamespace podName 0 60

/-- Model of Go's `%s` rendering of the `*appsv1.Deployment` literal in the
create-error message of `startDebug`.  Only the fact that the message is an
error matters to the claims; the rendering keeps the identifying fields. -/
def goFormatDeployment (d : Deployment) : String :=
  "&Deployment\x7bName:" ++ d.name ++ ",Namespace:" ++ d.ns ++ "\x7d"

/-- The mutation block of `startDebug` (lines 47-63): dereference-copy the
deployment, optionally swap the first container image, write the
do-not-reconcile label, clear the liveness/startup probes and overwrite
command/args of the first container.  `none` is a Go panic (empty container
slice indexed, or nil label map written). -/
def mutateDeployment (originalDeployment : Deployment)
    (alternateImageValue : String) : Option Deployment :=
  let deployment := originalDeployment
  let step1 : Option Deployment :=
    if alternateImageValue ≠ "" then
      withFirstContainer (fun c => { c with image := alternateImageValue })
        deployment
    else
      some deployment
  match step1 with
  | none => none
  | some deployment =>
      match deployment.labels with
      | none => none
      | some lbls =>
          let labels := setLabel lbls "ceph.rook.io/do-not-reconcile" "true"
          withFirstContainer
            (fun c => { c with
              livenessProbe := none
              startupProbe := none
              command := ["sleep", "infinity"]
              args := [] })
            { deployment with labels := some labels }

/-- The label selector of line 65:
`ceph_daemon_type=<v>,ceph_daemon_id=<v>` read from the pod template
labels with Go map lookup. -/
def selectorOf (d : Deployment) : String :=
  "ceph_daemon_type=" ++
    lookupLabel d.spec.template.labels "ceph_daemon_type" ++
    ",ceph_daemon_id=" ++
    lookupLabel d.spec.template.labels "ceph_daemon_id"

/-- The `debugDeploymentSpec` literal of lines 83-90: name
`<deploymentName>-debug`, the cluster namespace, the (mutated) label map and
the (mutated) deployment spec. -/
def debugSpecOf (d : Deployment)
    (clusterNamespace deploymentName : String) : Deployment :=
  { name := deploymentName ++ "-debug"
    ns := clusterNamespace
    labels := d.labels
    spec := d.spec }

/-- `startDebug` (lines 40-109): fetch the deployment, mutate the in-memory
copy, wait for the current pod to run, scale the original to 0, wait for
pod deletion (note: polled by the *deployment* name), create the `-debug`
deployment, scale it to 1, wait for the new pod to run.  The trace records
every API call in order. -/
def startDebug (env : ApiEnv)
    (clusterNamespace deploymentName alternateImageValue : String) :
    List ApiCall × Outcome :=
  let tr0 := [ApiCall.getDeployment clusterNamespace deploymentName]
  match env.getDeployment clusterNamespace deploymentName with
  | Except.error e =>
      (tr0, Outcome.error ("Missing mon or osd deployment name " ++
        deploymentName ++ ". " ++ e ++ "\n"))
  | Except.ok originalDeployment =>
      match mutateDeployment originalDeployment alternateImageValue with
      | none => (tr0, Outcome.panic)
      | some deployment =>
          let labelSelector := selectorOf deployment
          let tr1 := tr0 ++
            [ApiCall.waitForPodToRun 0 clusterNamespace labelSelector]
          match env.waitForPodToRun 0 clusterNamespace labelSelector with
          | Except.error e => (tr1, Outcome.error e)
          | Except.ok _deploymentPodName =>
              let scaleDown :=
                SetDeploymentScale env clusterNamespace deployment.name 0
              match scaleDown.2 with
              | Except.error e => (tr1 ++ scaleDown.1, Outcome.error e)
              | Except.ok _ =>
                  let delWait :=
                    waitForPodDeletion env clusterNamespace deploymentName
                  match delWait.2 with
                  | Except.error e =>
                      (tr1 ++ scaleDown.1 ++ delWait.1, Outcome.error e)
                  | Except.ok _ =>
                      let debugDeploymentSpec :=
                        debugSpecOf deployment clusterNamespace deploymentName
                      let tr2 := tr1 ++ scaleDown.1 ++ delWait.1 ++
                        [ApiCall.createDeployment clusterNamespace
                          debugDeploymentSpec]
                      match env.createDeployment clusterNamespace
                          debugDeploymentSpec with
                      | Except.error e =>
                          (tr2, Outcome.error ("Error creating deployment " ++
                            goFormatDeployment debugDeploymentSpec ++ ". " ++
                            e ++ "\n"))
                      | Except.ok debugDeployment =>
                          let scaleUp := SetDeploymentScale env
                            clusterNamespace debugDeployment.name 1
                          match scaleUp.2 with
                          | Except.error e =>
                              (tr2 ++ scaleUp.1, Outcome.error e)
                          | Except.ok _ =>
                              let tr3 := tr2 ++ scaleUp.1 ++
                                [ApiCall.waitForPodToRun 1 clusterNamespace
                                  labelSelector]
                              match env.waitForPodToRun 1 clusterNamespace
                                  labelSelector with
                              | Except.error e => (tr3, Outcome.fatal e)
                              | Except.ok _pod => (tr3, Outcome.ok)

/-! ## Derived forms of the mutation block -/

/-- The first container after the mutation block: image swapped when the
alternate image argument is non-empty, probes cleared, command overwritten,
args emptied. -/
def debugContainer (c : Container) (alternateImageValue : String) :
    Container :=
  { image := if alternateImageValue = "" then c.image else alternateImageValue
    command := ["sleep", "infinity"]
    args := []
    livenessProbe := none
    startupProbe := none }

/-- The deployment produced by the mutation block when the original has first
container `c`, remaining containers `rest` and (non-nil) label map `lbls`. -/
def mutatedOf (d : Deployment) (alternateImageValue : String)
    (c : Container) (rest : List Container) (lbls : List (String × String)) :
    Deployment :=
  { d with
    labels := some (setLabel lbls "ceph.rook.io/do-not-reconcile" "true")
    spec := { template := { labels := d.spec.template.labels
                            spec := { containers :=
                              debugContainer c alternateImageValue :: rest } } } }

/-- Trace-event classifiers used to state which calls a run issues. -/
def isScaleCall : ApiCall → Bool
  | ApiCall.updateScale _ _ _ => true
  | _ => false

def isCreateCall : ApiCall → Bool
  | ApiCall.createDeployment _ _ => true
  | _ => false

def isPodGetCall : ApiCall → Bool
  | ApiCall.getPod _ _ => true
  | _ => false

/-- The position of a call in the workflow's fixed step order, used to state
that every trace is ordered by steps. -/
def stepIndex : ApiCall → Nat
  | ApiCall.getDeployment _ _ => 0
  | ApiCall.waitForPodToRun occ _ _ => if occ = 0 then 1 else 6
  | ApiCall.updateScale _ _ s => if s.replicas = 0 then 2 else 5
  | ApiCall.getPod _ _ => 3
  | ApiCall.sleepSeconds _ => 3
  | ApiCall.createDeployment _ _ => 4

/-- The trace prefix of a run that has fetched the deployment, waited for
the current pod and issued the scale-to-0 update. -/
def trHead (ns nm : String) (d' : Deployment) : List ApiCall :=
  [ApiCall.getDeployment ns nm,
   ApiCall.waitForPodToRun 0 ns (selectorOf d'),
   ApiCall.updateScale ns d'.name (scaleObj ns d'.name 0)]

/-- A concrete mon container, used to evaluate the workflow on explicit
inputs. -/
def sampleContainer : Container :=
  { image := "quay.io/ceph/ceph:v17"
    command := ["ceph-mon"]
    args := ["--foreground"]
    livenessProbe := some ⟨"tcp-3300"⟩
    startupProbe := some ⟨"tcp-3300"⟩ }

/-- A concrete mon deployment with one container, Rook daemon labels on the
pod template, and a non-nil top-level label map. -/
def sampleDeployment : Deployment :=
  { name := "rook-ceph-mon-a"
    ns := "rook-ceph"
    labels := some [("app", "rook-ceph-mon")]
    spec := { template :=
      { labels := [("ceph_daemon_type", "mon"), ("ceph_daemon_id", "a")]
        spec := { containers := [sampleContainer] } } } }

/-- A cluster in which every call succeeds: the mon deployment exists, the
pod-run waits return a Running pod named `rook-ceph-mon-a-564f`, scale
updates succeed, only a pod named exactly `rook-ceph-mon-a` is reported
not-found (pods of the deployment carry a generated suffix, so no such pod
exists), and creates echo their argument. -/
def happyEnv : ApiEnv :=
  { getDeployment := fun ns nm =>
      if ns = "rook-ceph" ∧ nm = "rook-ceph-mon-a" then
        Except.ok sampleDeployment
      else
        Except.error ("deployments.apps " ++ nm ++ " not found")
    waitForPodToRun := fun _ _ _ =>
      Except.ok { name := "rook-ceph-mon-a-564f", phase := "Running" }
    updateScale := fun _ _ _ => Except.ok ()
    podGone := fun _ nm _ => nm == "rook-ceph-mon-a"
    createDeployment := fun _ d => Except.ok d }

/-- `happyEnv`, except that every create call is rejected with an
already-exists conflict, as the API answers when a previous run has left a
`-debug` deployment behind. -/
def conflictEnv : ApiEnv :=
  { happyEnv with
    createDeployment := fun _ d =>
      Except.error ("deployments.apps " ++ d.name ++ " already exists") }

/-- `happyEnv`, except that no pod Get ever reports not-found. -/
def neverGoneEnv : ApiEnv :=
  { happyEnv with podGone := fun _ _ _ => false }

/-- Modelled from the spec: `k8sutil.WaitForPodToRun` (package
`pkg/k8sutil`, whose source is not among the provided files) polls the API
by label selector until a matching pod reports Running phase and returns
that pod.  An environment is faithful to that contract in namespace `ns`
when every successful response carries phase `Running`. -/
def WaitForPodToRunSound (env : ApiEnv) (ns : String) : Prop :=
  ∀ i sel p, env.waitForPodToRun i ns sel = Except.ok p → p.phase = "Running"

/-! ## Basic lemmas -/

theorem int32ofInt_zero : int32ofInt 0 = 0 := by norm_num [int32ofInt]

theorem int32ofInt_one : int32ofInt 1 = 1 := by
  norm_num [int32ofInt, Int.emod_emod_of_dvd]

theorem SetDeploymentScale_trace (env : ApiEnv) (ns nm : String) (c : Int) :
    (SetDeploymentScale env ns nm c).1 =
      [ApiCall.updateScale ns nm (scaleObj ns nm c)] := by
  simp only [SetDeploymentScale]
  cases env.updateScale ns nm (scaleObj ns nm c) <;> rfl

theorem SetDeploymentScale_eq_error (env : ApiEnv) (ns nm : String)
    (c : Int) (e : String)
    (h : env.updateScale ns nm (scaleObj ns nm c) = Except.error e) :
    SetDeploymentScale env ns nm c =
      ([ApiCall.updateScale ns nm (scaleObj ns nm c)],
       Except.error ("failed to update scale of deployment " ++ nm ++ ". " ++
         e ++ "\n")) := by
  simp only [SetDeploymentScale]
  rw [h]

theorem SetDeploymentScale_eq_ok (env : ApiEnv) (ns nm : String) (c : Int)
    (h : env.updateScale ns nm (scaleObj ns nm c) = Except.ok ()) :
    SetDeploymentScale env ns nm c =
      ([ApiCall.updateScale ns nm (scaleObj ns nm c)], Except.ok ()) := by
  simp only [SetDeploymentScale]
  rw [h]

theorem waitForPodDeletionAux_gone (env : ApiEnv) (ns p : String)
    (i fuel : Nat) (h : env.podGone ns p i = true) :
    waitForPodDeletionAux env ns p i (fuel + 1) =
      ([ApiCall.getPod ns p], Except.ok ()) := by
  simp [waitForPodDeletionAux, h]

theorem waitForPodDeletion_gone0 (env : ApiEnv) (ns p : String)
    (h : env.podGone ns p 0 = true) :
    waitForPodDeletion env ns p = ([ApiCall.getPod ns p], Except.ok ()) := by
  have h60 : (60 : Nat) = 59 + 1 := rfl
  unfold waitForPodDeletion
  rw [h60, waitForPodDeletionAux_gone env ns p 0 59 h]

theorem waitForPodDeletionAux_never (env : ApiEnv) (ns p : String)
    (h : ∀ j, env.podGone ns p j = false) (fuel i : Nat) :
    waitForPodDeletionAux env ns p i fuel =
      ((List.replicate fuel
          [ApiCall.getPod ns p, ApiCall.sleepSeconds 5]).flatten,
       Except.error ("failed to delete pod " ++ p)) := by
  induction fuel generalizing i with
  | zero => simp [waitForPodDeletionAux]
  | succ n ih =>
      simp only [waitForPodDeletionAux, h i, Bool.false_eq_true, if_false,
        List.replicate_succ, List.flatten_cons]
      rw [ih (i + 1)]
      rfl

/-- With a pod the API never reports as deleted, the deletion wait issues
exactly 60 `Get` polls separated by fixed 5-second sleeps and fails with an
error naming the pod. -/
theorem waitForPodDeletion_never (env : ApiEnv) (ns p : String)
    (h : ∀ j, env.podGone ns p j = false) :
    waitForPodDeletion env ns p =
      ((List.replicate 60
          [ApiCall.getPod ns p, ApiCall.sleepSeconds 5]).flatten,
       Except.error ("failed to delete pod " ++ p)) :=
  waitForPodDeletionAux_never env ns p h 60 0

theorem waitForPodDeletionAux_mem (env : ApiEnv) (ns p : String)
    (fuel i : Nat) :
    ∀ e ∈ (waitForPodDeletionAux env ns p i fuel).1,
      e = ApiCall.getPod ns p ∨ e = ApiCall.sleepSeconds 5 := by
  induction fuel generalizing i with
  | zero => simp [waitForPodDeletionAux]
  | succ n ih =>
      by_cases hg : env.podGone ns p i
      · simp [waitForPodDeletionAux, hg]
      · simp only [waitForPodDeletionAux, hg, Bool.false_eq_true, if_false,
          List.mem_cons]
        rintro e (rfl | rfl | he)
        · exact Or.inl rfl
        · exact Or.inr rfl
        · exact ih (i + 1) e he

theorem waitForPodDeletion_mem (env : ApiEnv) (ns p : String) :
    ∀ e ∈ (waitForPodDeletion env ns p).1,
      e = ApiCall.getPod ns p ∨ e = ApiCall.sleepSeconds 5 :=
  waitForPodDeletionAux_mem env ns p 60 0

/-- The mutation block, evaluated: with a non-empty container list and a
non-nil label map it succeeds and produces exactly the `mutatedOf` form. -/
theorem mutateDeployment_eq (d : Deployment) (alt : String) (c : Container)
    (rest : List Container) (lbls : List (String × String))
    (hc : d.spec.template.spec.containers = c :: rest)
    (hl : d.labels = some lbls) :
    mutateDeployment d alt = some (mutatedOf d alt c rest lbls) := by
  rcases d with ⟨dn, dns, dl, ⟨⟨tl, ⟨cs⟩⟩⟩⟩
  simp only at hc hl
  subst hc
  subst hl
  by_cases h : alt = "" <;>
    simp [mutateDeployment, withFirstContainer, mutatedOf, debugContainer, h]

/-- Exhaustive characterization of `startDebug`: depending on where the
first failing call sits, a run is exactly one of nine trace/outcome pairs. -/
theorem startDebug_shape (env : ApiEnv) (ns nm alt : String) :
    (∃ e, env.getDeployment ns nm = Except.error e ∧
       startDebug env ns nm alt =
         ([ApiCall.getDeployment ns nm],
          Outcome.error ("Missing mon or osd deployment name " ++ nm ++
            ". " ++ e ++ "\n"))) ∨
    (∃ d, env.getDeployment ns nm = Except.ok d ∧
       mutateDeployment d alt = none ∧
       startDebug env ns nm alt =
         ([ApiCall.getDeployment ns nm], Outcome.panic)) ∨
    (∃ d d' e, env.getDeployment ns nm = Except.ok d ∧
       mutateDeployment d alt = some d' ∧
       env.waitForPodToRun 0 ns (selectorOf d') = Except.error e ∧
       startDebug env ns nm alt =
         ([ApiCall.getDeployment ns nm,
           ApiCall.waitForPodToRun 0 ns (selectorOf d')],
          Outcome.error e)) ∨
    (∃ d d' p0 e, env.getDeployment ns nm = Except.ok d ∧
       mutateDeployment d alt = some d' ∧
       env.waitForPodToRun 0 ns (selectorOf d') = Except.ok p0 ∧
       env.updateScale ns d'.name (scaleObj ns d'.name 0) = Except.error e ∧
       startDebug env ns nm alt =
         (trHead ns nm d',
          Outcome.error ("failed to update scale of deployment " ++
            d'.name ++ ". " ++ e ++ "\n"))) ∨
    (∃ d d' p0 trW e, env.getDeployment ns nm = Except.ok d ∧
       mutateDeployment d alt = some d' ∧
       env.waitForPodToRun 0 ns (selectorOf d') = Except.ok p0 ∧
       env.updateScale ns d'.name (scaleObj ns d'.name 0) = Except.ok () ∧
       waitForPodDeletion env ns nm = (trW, Except.error e) ∧
       startDebug env ns nm alt =
         (trHead ns nm d' ++ trW, Outcome.error e)) ∨
    (∃ d d' p0 trW e, env.getDeployment ns nm = Except.ok d ∧
       mutateDeployment d alt = some d' ∧
       env.waitForPodToRun 0 ns (selectorOf d') = Except.ok p0 ∧
       env.updateScale ns d'.name (scaleObj ns d'.name 0) = Except.ok () ∧
       waitForPodDeletion env ns nm = (trW, Except.ok ()) ∧
       env.createDeployment ns (debugSpecOf d' ns nm) = Except.error e ∧
       startDebug env ns nm alt =
         (trHead ns nm d' ++ trW ++
            [ApiCall.createDeployment ns (debugSpecOf d' ns nm)],
          Outcome.error ("Error creating deployment " ++
            goFormatDeployment (debugSpecOf d' ns nm) ++ ". " ++ e ++
            "\n"))) ∨
    (∃ d d' p0 trW r e, env.getDeployment ns nm = Except.ok d ∧
       mutateDeployment d alt = some d' ∧
       env.waitForPodToRun 0 ns (selectorOf d') = Except.ok p0 ∧
       env.updateScale ns d'.name (scaleObj ns d'.name 0) = Except.ok () ∧
       waitForPodDeletion env ns nm = (trW, Except.ok ()) ∧
       env.createDeployment ns (debugSpecOf d' ns nm) = Except.ok r ∧
       env.updateScale ns r.name (scaleObj ns r.name 1) = Except.error e ∧
       startDebug env ns nm alt =
         (trHead ns nm d' ++ trW ++
            [ApiCall.createDeployment ns (debugSpecOf d' ns nm),
             ApiCall.updateScale ns r.name (scaleObj ns r.name 1)],
          Outcome.error ("failed to update scale of deployment " ++
            r.name ++ ". " ++ e ++ "\n"))) ∨
    (∃ d d' p0 trW r e, env.getDeployment ns nm = Except.ok d ∧
       mutateDeployment d alt = some d' ∧
       env.waitForPodToRun 0 ns (selectorOf d') = Except.ok p0 ∧
       env.updateScale ns d'.name (scaleObj ns d'.name 0) = Except.ok () ∧
       waitForPodDeletion env ns nm = (trW, Except.ok ()) ∧
       env.createDeployment ns (debugSpecOf d' ns nm) = Except.ok r ∧
       env.updateScale ns r.name (scaleObj ns r.name 1) = Except.ok () ∧
       env.waitForPodToRun 1 ns (selectorOf d') = Except.error e ∧
       startDebug env ns nm alt =
         (trHead ns nm d' ++ trW ++
            [ApiCall.createDeployment ns (debugSpecOf d' ns nm),
             ApiCall.updateScale ns r.name (scaleObj ns r.name 1),
             ApiCall.waitForPodToRun 1 ns (selectorOf d')],
          Outcome.fatal e)) ∨
    (∃ d d' p0 trW r p1, env.getDeployment ns nm = Except.ok d ∧
       mutateDeployment d alt = some d' ∧
       env.waitForPodToRun 0 ns (selectorOf d') = Except.ok p0 ∧
       env.updateScale ns d'.name (scaleObj ns d'.name 0) = Except.ok () ∧
       waitForPodDeletion env ns nm = (trW, Except.ok ()) ∧
       env.createDeployment ns (debugSpecOf d' ns nm) = Except.ok r ∧
       env.updateScale ns r.name (scaleObj ns r.name 1) = Except.ok () ∧
       env.waitForPodToRun 1 ns (selectorOf d') = Except.ok p1 ∧
       startDebug env ns nm alt =
         (trHead ns nm d' ++ trW ++
            [ApiCall.createDeployment ns (debugSpecOf d' ns nm),
             ApiCall.updateScale ns r.name (scaleObj ns r.name 1),
             ApiCall.waitForPodToRun 1 ns (selectorOf d')],
          Outcome.ok)) := by
  rcases hget : env.getDeployment ns nm with e | d
  · exact Or.inl ⟨e, rfl, by simp [startDebug, hget]⟩
  rcases hmut : mutateDeployment d alt with _ | d'
  · exact Or.inr (Or.inl ⟨d, rfl, hmut, by simp [startDebug, hget, hmut]⟩)
  rcases hw0 : env.waitForPodToRun 0 ns (selectorOf d') with e | p0
  · exact Or.inr (Or.inr (Or.inl ⟨d, d', e, rfl, hmut, hw0,
      by simp [startDebug, hget, hmut, hw0]⟩))
  rcases hs0 : env.updateScale ns d'.name (scaleObj ns d'.name 0) with e | u
  · refine Or.inr (Or.inr (Or.inr (Or.inl
      ⟨d, d', p0, e, rfl, hmut, hw0, hs0, ?_⟩)))
    simp [startDebug, hget, hmut, hw0,
      SetDeploymentScale_eq_error env ns d'.name 0 e hs0, trHead]
  cases u
  rcases hW : waitForPodDeletion env ns nm with ⟨trW, rW⟩
  rcases rW with e | v
  · refine Or.inr (Or.inr (Or.inr (Or.inr (Or.inl
      ⟨d, d', p0, trW, e, rfl, hmut, hw0, hs0, rfl, ?_⟩))))
    simp [startDebug, hget, hmut, hw0,
      SetDeploymentScale_eq_ok env ns d'.name 0 hs0, hW, trHead]
  cases v
  rcases hcr : env.createDeployment ns (debugSpecOf d' ns nm) with e | r
  · refine Or.inr (Or.inr (Or.inr (Or.inr (Or.inr (Or.inl
      ⟨d, d', p0, trW, e, rfl, hmut, hw0, hs0, rfl, hcr, ?_⟩)))))
    simp [startDebug, hget, hmut, hw0,
      SetDeploymentScale_eq_ok env ns d'.name 0 hs0, hW, hcr, trHead]
  rcases hs1 : env.updateScale ns r.name (scaleObj ns r.name 1) with e | u1
  · refine Or.inr (Or.inr (Or.inr (Or.inr (Or.inr (Or.inr (Or.inl
      ⟨d, d', p0, trW, r, e, rfl, hmut, hw0, hs0, rfl, hcr, hs1, ?_⟩))))))
    simp [startDebug, hget, hmut, hw0,
      SetDeploymentScale_eq_ok env ns d'.name 0 hs0, hW, hcr,
      SetDeploymentScale_eq_error env ns r.name 1 e hs1, trHead]
  cases u1
  rcases hw1 : env.waitForPodToRun 1 ns (selectorOf d') with e | p1
  · refine Or.inr (Or.inr (Or.inr (Or.inr (Or.inr (Or.inr (Or.inr (Or.inl
      ⟨d, d', p0, trW, r, e, rfl, hmut, hw0, hs0, rfl, hcr, hs1, hw1,
        ?_⟩)))))))
    simp [startDebug, hget, hmut, hw0,
      SetDeploymentScale_eq_ok env ns d'.name 0 hs0, hW, hcr,
      SetDeploymentScale_eq_ok env ns r.name 1 hs1, hw1, trHead]
  · refine Or.inr (Or.inr (Or.inr (Or.inr (Or.inr (Or.inr (Or.inr (Or.inr
      ⟨d, d', p0, trW, r, p1, rfl, hmut, hw0, hs0, rfl, hcr, hs1, hw1,
        ?_⟩)))))))
    simp [startDebug, hget, hmut, hw0,
      SetDeploymentScale_eq_ok env ns d'.name 0 hs0, hW, hcr,
      SetDeploymentScale_eq_ok env ns r.name 1 hs1, hw1, trHead]

theorem count_flatten_pair (a b : ApiCall) (hab : a ≠ b) (n : Nat) :
    ((List.replicate n [a, b]).flatten.count a = n) ∧
    ((List.replicate n [a, b]).flatten.count b = n) := by
  induction n with
  | zero => simp
  | succ k ih =>
      simp [List.replicate_succ, List.count_cons, ih.1, ih.2, beq_iff_eq,
        hab, Ne.symm hab]

/-- C3: a run against a deployment name the API cannot fetch returns only
the failed Get, with an error message that names that deployment, and the
trace carries no scale update and no create call. -/
theorem startDebug_missing_deployment (env : ApiEnv) (ns nm alt e : String)
    (h : env.getDeployment ns nm = Except.error e) :
    startDebug env ns nm alt =
      ([ApiCall.getDeployment ns nm],
       Outcome.error ("Missing mon or osd deployment name " ++ nm ++ ". " ++
         e ++ "\n")) ∧
    (∃ s t, "Missing mon or osd deployment name " ++ nm ++ ". " ++ e ++ "\n"
      = s ++ nm ++ t) ∧
    (startDebug env ns nm alt).1.filter isScaleCall = [] ∧
    (startDebug env ns nm alt).1.filter isCreateCall = [] := by
  have htr : startDebug env ns nm alt =
      ([ApiCall.getDeployment ns nm],
       Outcome.error ("Missing mon or osd deployment name " ++ nm ++ ". " ++
         e ++ "\n")) := by
    simp [startDebug, h]
  refine ⟨htr,
    ⟨"Missing mon or osd deployment name ", ". " ++ e ++ "\n", ?_⟩,
    ?_, ?_⟩
  · simp [String.append_assoc]
  · rw [htr]; rfl
  · rw [htr]; rfl

theorem startDebug_missing_deployment_witness :
    happyEnv.getDeployment "rook-ceph" "rook-ceph-osd-0" =
      Except.error ("deployments.apps " ++ "rook-ceph-osd-0" ++
        " not found") ∧
    (startDebug happyEnv "rook-ceph" "rook-ceph-osd-0" "").1.filter
      isScaleCall = [] ∧
    (startDebug happyEnv "rook-ceph" "rook-ceph-osd-0" "").1.filter
      isCreateCall = [] := by
  have h : happyEnv.getDeployment "rook-ceph" "rook-ceph-osd-0" =
      Except.error ("deployments.apps " ++ "rook-ceph-osd-0" ++
        " not found") := rfl
  have main := startDebug_missing_deployment happyEnv "rook-ceph"
    "rook-ceph-osd-0" "" ("deployments.apps " ++ "rook-ceph-osd-0" ++
      " not found") h
  exact ⟨h, main.2.2.1, main.2.2.2⟩

/-- C4: if the pod Get never reports not-found, the deletion wait performs
exactly 60 polls separated by fixed 5-second sleeps (never any other sleep
length) and fails with an error that names the target pod. -/
theorem waitForPodDeletion_retry_budget (env : ApiEnv) (ns p : String)
    (h : ∀ j, env.podGone ns p j = false) :
    (waitForPodDeletion env ns p).1.count (ApiCall.getPod ns p) = 60 ∧
    (waitForPodDeletion env ns p).1.count (ApiCall.sleepSeconds 5) = 60 ∧
    (∀ s, ApiCall.sleepSeconds s ∈ (waitForPodDeletion env ns p).1 →
      s = 5) ∧
    (waitForPodDeletion env ns p).2 =
      Except.error ("failed to delete pod " ++ p) ∧
    ∃ s t, "failed to delete pod " ++ p = s ++ p ++ t := by
  have hne : ApiCall.getPod ns p ≠ ApiCall.sleepSeconds 5 := by simp
  have hcount :=
    count_flatten_pair (ApiCall.getPod ns p) (ApiCall.sleepSeconds 5) hne 60
  rw [waitForPodDeletion_never env ns p h]
  refine ⟨hcount.1, hcount.2, ?_, rfl,
    ⟨"failed to delete pod ", "", ?_⟩⟩
  · intro s hs
    simp only [List.mem_flatten] at hs
    obtain ⟨y, hy, hmem⟩ := hs
    rw [List.eq_of_mem_replicate hy] at hmem
    simp at hmem
    exact hmem
  · rw [String.append_empty]

theorem waitForPodDeletion_retry_budget_witness :
    (waitForPodDeletion neverGoneEnv "rook-ceph" "rook-ceph-mon-a").1.count
      (ApiCall.getPod "rook-ceph" "rook-ceph-mon-a") = 60 ∧
    (waitForPodDeletion neverGoneEnv "rook-ceph" "rook-ceph-mon-a").2 =
      Except.error ("failed to delete pod " ++ "rook-ceph-mon-a") := by
  have main := waitForPodDeletion_retry_budget neverGoneEnv "rook-ceph"
    "rook-ceph-mon-a" (fun j => rfl)
  exact ⟨main.1, main.2.2.2.1⟩

/-- C6: for every namespace, deployment name and replica count, the scale
helper issues exactly one Scale-subresource update; an API failure is
returned wrapped with the deployment name and the underlying error, without
a retry; an API success returns no error. -/
theorem SetDeploymentScale_contract (env : ApiEnv) (ns nm : String)
    (c : Int) :
    (SetDeploymentScale env ns nm c).1 =
      [ApiCall.updateScale ns nm (scaleObj ns nm c)] ∧
    (∀ e, env.updateScale ns nm (scaleObj ns nm c) = Except.error e →
      (SetDeploymentScale env ns nm c).2 =
        Except.error ("failed to update scale of deployment " ++ nm ++
          ". " ++ e ++ "\n") ∧
      (∃ s t, "failed to update scale of deployment " ++ nm ++ ". " ++ e ++
        "\n" = s ++ nm ++ t) ∧
      (∃ s t, "failed to update scale of deployment " ++ nm ++ ". " ++ e ++
        "\n" = s ++ e ++ t)) ∧
    (env.updateScale ns nm (scaleObj ns nm c) = Except.ok () →
      (SetDeploymentScale env ns nm c).2 = Except.ok ()) := by
  refine ⟨SetDeploymentScale_trace env ns nm c, ?_, ?_⟩
  · intro e he
    rw [SetDeploymentScale_eq_error env ns nm c e he]
    refine ⟨rfl,
      ⟨"failed to update scale of deployment ", ". " ++ e ++ "\n", ?_⟩,
      ⟨"failed to update scale of deployment " ++ nm ++ ". ", "\n", ?_⟩⟩
    · simp [String.append_assoc]
    · simp [String.append_assoc]
  · intro hok
    rw [SetDeploymentScale_eq_ok env ns nm c hok]

theorem SetDeploymentScale_contract_witness :
    (SetDeploymentScale happyEnv "rook-ceph" "rook-ceph-mon-a" 0).1 =
      [ApiCall.updateScale "rook-ceph" "rook-ceph-mon-a"
        (scaleObj "rook-ceph" "rook-ceph-mon-a" 0)] ∧
    (SetDeploymentScale happyEnv "rook-ceph" "rook-ceph-mon-a" 0).2 =
      Except.ok () := by
  have main :=
    SetDeploymentScale_contract happyEnv "rook-ceph" "rook-ceph-mon-a" 0
  exact ⟨main.1, main.2.2 rfl⟩

/-- C1: run against an existing deployment (non-empty containers, non-nil
labels) with a non-empty alternate image, and with the cluster answering
every call, the workflow issues a create for a deployment named
`<name>-debug` in the same namespace whose first container has the
alternate image, the `sleep infinity` command, empty args and no
liveness/startup probe. -/
theorem startDebug_creates_debug_deployment (env : ApiEnv)
    (ns nm alt : String) (d : Deployment) (c : Container)
    (rest : List Container) (lbls : List (String × String))
    (hget : env.getDeployment ns nm = Except.ok d)
    (hc : d.spec.template.spec.containers = c :: rest)
    (hl : d.labels = some lbls)
    (halt : alt ≠ "")
    (hw : ∀ i sel, ∃ p, env.waitForPodToRun i ns sel = Except.ok p)
    (hsc : ∀ nm' s, env.updateScale ns nm' s = Except.ok ())
    (hgone : env.podGone ns nm 0 = true)
    (hcr : ∀ dbg, ∃ r, env.createDeployment ns dbg = Except.ok r) :
    ∃ dbg c',
      ApiCall.createDeployment ns dbg ∈ (startDebug env ns nm alt).1 ∧
      dbg.name = nm ++ "-debug" ∧ dbg.ns = ns ∧
      dbg.spec.template.spec.containers.head? = some c' ∧
      c'.image = alt ∧ c'.command = ["sleep", "infinity"] ∧
      c'.args = [] ∧ c'.livenessProbe = none ∧ c'.startupProbe = none := by
  have hmut := mutateDeployment_eq d alt c rest lbls hc hl
  set M := mutatedOf d alt c rest lbls with hM
  obtain ⟨p0, hw0⟩ := hw 0 (selectorOf M)
  obtain ⟨r, hcr'⟩ := hcr (debugSpecOf M ns nm)
  obtain ⟨p1, hw1⟩ := hw 1 (selectorOf M)
  have hrun : startDebug env ns nm alt =
      (trHead ns nm M ++ [ApiCall.getPod ns nm] ++
         [ApiCall.createDeployment ns (debugSpecOf M ns nm),
          ApiCall.updateScale ns r.name (scaleObj ns r.name 1),
          ApiCall.waitForPodToRun 1 ns (selectorOf M)],
       Outcome.ok) := by
    simp [startDebug, hget, hmut, hw0,
      SetDeploymentScale_eq_ok env ns M.name 0 (hsc _ _),
      waitForPodDeletion_gone0 env ns nm hgone, hcr',
      SetDeploymentScale_eq_ok env ns r.name 1 (hsc _ _), hw1, trHead]
  refine ⟨debugSpecOf M ns nm, debugContainer c alt, ?_, rfl, rfl, ?_, ?_,
    rfl, rfl, rfl, rfl⟩
  · rw [hrun]; simp [trHead]
  · simp [debugSpecOf, hM, mutatedOf]
  · simp [debugContainer, halt]

theorem startDebug_creates_debug_deployment_witness :
    ("my-registry/ceph:debug" : String) ≠ "" ∧
    ∃ dbg c',
      ApiCall.createDeployment "rook-ceph" dbg ∈
        (startDebug happyEnv "rook-ceph" "rook-ceph-mon-a"
          "my-registry/ceph:debug").1 ∧
      dbg.name = "rook-ceph-mon-a" ++ "-debug" ∧ dbg.ns = "rook-ceph" ∧
      dbg.spec.template.spec.containers.head? = some c' ∧
      c'.image = "my-registry/ceph:debug" ∧
      c'.command = ["sleep", "infinity"] ∧
      c'.args = [] ∧ c'.livenessProbe = none ∧ c'.startupProbe = none := by
  refine ⟨by decide, ?_⟩
  exact startDebug_creates_debug_deployment happyEnv "rook-ceph"
    "rook-ceph-mon-a" "my-registry/ceph:debug" sampleDeployment
    sampleContainer [] [("app", "rook-ceph-mon")] rfl rfl rfl (by decide)
    (fun i sel => ⟨{ name := "rook-ceph-mon-a-564f", phase := "Running" },
      rfl⟩)
    (fun nm' s => rfl) (by decide) (fun dbg => ⟨dbg, rfl⟩)

/-- C9: with an empty alternate image argument the created `-debug`
deployment keeps the original first container's image; only command, args
and probes change. -/
theorem startDebug_empty_image_preserved (env : ApiEnv)
    (ns nm alt : String) (d : Deployment) (c : Container)
    (rest : List Container) (lbls : List (String × String))
    (hget : env.getDeployment ns nm = Except.ok d)
    (hc : d.spec.template.spec.containers = c :: rest)
    (hl : d.labels = some lbls)
    (halt : alt = "")
    (hw : ∀ i sel, ∃ p, env.waitForPodToRun i ns sel = Except.ok p)
    (hsc : ∀ nm' s, env.updateScale ns nm' s = Except.ok ())
    (hgone : env.podGone ns nm 0 = true)
    (hcr : ∀ dbg, ∃ r, env.createDeployment ns dbg = Except.ok r) :
    ∃ dbg c',
      ApiCall.createDeployment ns dbg ∈ (startDebug env ns nm alt).1 ∧
      dbg.spec.template.spec.containers.head? = some c' ∧
      c'.image = c.image ∧ c'.command = ["sleep", "infinity"] ∧
      c'.args = [] ∧ c'.livenessProbe = none ∧ c'.startupProbe = none := by
  have hmut := mutateDeployment_eq d alt c rest lbls hc hl
  set M := mutatedOf d alt c rest lbls with hM
  obtain ⟨p0, hw0⟩ := hw 0 (selectorOf M)
  obtain ⟨r, hcr'⟩ := hcr (debugSpecOf M ns nm)
  obtain ⟨p1, hw1⟩ := hw 1 (selectorOf M)
  have hrun : startDebug env ns nm alt =
      (trHead ns nm M ++ [ApiCall.getPod ns nm] ++
         [ApiCall.createDeployment ns (debugSpecOf M ns nm),
          ApiCall.updateScale ns r.name (scaleObj ns r.name 1),
          ApiCall.waitForPodToRun 1 ns (selectorOf M)],
       Outcome.ok) := by
    simp [startDebug, hget, hmut, hw0,
      SetDeploymentScale_eq_ok env ns M.name 0 (hsc _ _),
      waitForPodDeletion_gone0 env ns nm hgone, hcr',
      SetDeploymentScale_eq_ok env ns r.name 1 (hsc _ _), hw1, trHead]
  refine ⟨debugSpecOf M ns nm, debugContainer c alt, ?_, ?_, ?_,
    rfl, rfl, rfl, rfl⟩
  · rw [hrun]; simp [trHead]
  · simp [debugSpecOf, hM, mutatedOf]
  · simp [debugContainer, halt]

theorem startDebug_empty_image_preserved_witness :
    ∃ dbg c',
      ApiCall.createDeployment "rook-ceph" dbg ∈
        (startDebug happyEnv "rook-ceph" "rook-ceph-mon-a" "").1 ∧
      dbg.spec.template.spec.containers.head? = some c' ∧
      c'.image = sampleContainer.image ∧
      c'.command = ["sleep", "infinity"] ∧
      c'.args = [] ∧ c'.livenessProbe = none ∧ c'.startupProbe = none :=
  startDebug_empty_image_preserved happyEnv "rook-ceph" "rook-ceph-mon-a"
    "" sampleDeployment sampleContainer [] [("app", "rook-ceph-mon")]
    rfl rfl rfl rfl
    (fun i sel => ⟨{ name := "rook-ceph-mon-a-564f", phase := "Running" },
      rfl⟩)
    (fun nm' s => rfl) (by decide) (fun dbg => ⟨dbg, rfl⟩)

/-- C5: when the create of the `-debug` deployment fails after the original
was scaled to 0, the run returns an error and the only scale update in the
whole trace is the one that set the original deployment to 0 replicas — no
compensating scale-up is issued. -/
theorem startDebug_create_failure_no_rollback (env : ApiEnv)
    (ns nm alt : String) (d : Deployment) (c : Container)
    (rest : List Container) (lbls : List (String × String))
    (hget : env.getDeployment ns nm = Except.ok d)
    (hc : d.spec.template.spec.containers = c :: rest)
    (hl : d.labels = some lbls)
    (hw : ∀ i sel, ∃ p, env.waitForPodToRun i ns sel = Except.ok p)
    (hsc : ∀ nm' s, env.updateScale ns nm' s = Except.ok ())
    (hgone : env.podGone ns nm 0 = true)
    (hcrE : ∀ dbg, ∃ e, env.createDeployment ns dbg = Except.error e) :
    (∃ msg, (startDebug env ns nm alt).2 = Outcome.error msg) ∧
    (startDebug env ns nm alt).1.filter isScaleCall =
      [ApiCall.updateScale ns d.name (scaleObj ns d.name 0)] ∧
    (scaleObj ns d.name 0).replicas = 0 := by
  have hmut := mutateDeployment_eq d alt c rest lbls hc hl
  set M := mutatedOf d alt c rest lbls with hM
  obtain ⟨p0, hw0⟩ := hw 0 (selectorOf M)
  obtain ⟨e, hcrE'⟩ := hcrE (debugSpecOf M ns nm)
  have hrun : startDebug env ns nm alt =
      (trHead ns nm M ++ [ApiCall.getPod ns nm] ++
         [ApiCall.createDeployment ns (debugSpecOf M ns nm)],
       Outcome.error ("Error creating deployment " ++
         goFormatDeployment (debugSpecOf M ns nm) ++ ". " ++ e ++ "\n")) := by
    simp [startDebug, hget, hmut, hw0,
      SetDeploymentScale_eq_ok env ns M.name 0 (hsc _ _),
      waitForPodDeletion_gone0 env ns nm hgone, hcrE', trHead]
  refine ⟨⟨_, by rw [hrun]⟩, ?_, by simp [scaleObj, int32ofInt_zero]⟩
  rw [hrun]
  simp [trHead, isScaleCall, hM, mutatedOf]

theorem startDebug_create_failure_no_rollback_witness :
    (∃ msg, (startDebug conflictEnv "rook-ceph" "rook-ceph-mon-a" "").2 =
      Outcome.error msg) ∧
    (startDebug conflictEnv "rook-ceph" "rook-ceph-mon-a" "").1.filter
        isScaleCall =
      [ApiCall.updateScale "rook-ceph" "rook-ceph-mon-a"
        (scaleObj "rook-ceph" "rook-ceph-mon-a" 0)] := by
  have main := startDebug_create_failure_no_rollback conflictEnv
    "rook-ceph" "rook-ceph-mon-a" ""
    sampleDeployment sampleContainer [] [("app", "rook-ceph-mon")]
    rfl rfl rfl
    (fun i sel => ⟨{ name := "rook-ceph-mon-a-564f", phase := "Running" },
      rfl⟩)
    (fun nm' s => rfl) (by decide)
    (fun dbg => ⟨"deployments.apps " ++ dbg.name ++ " already exists", rfl⟩)
  exact ⟨main.1, main.2.1⟩

/-- C8: with a `<name>-debug` deployment already present (the API rejects
any create of that name with a conflict), a second run still reaches the
create step, issues exactly one create call carrying the same
`<name>-debug` name, and fails with the returned error — it neither skips
the create nor replaces the existing deployment. -/
theorem startDebug_rerun_name_conflict (env : ApiEnv)
    (ns nm alt : String) (d : Deployment) (c : Container)
    (rest : List Container) (lbls : List (String × String))
    (hget : env.getDeployment ns nm = Except.ok d)
    (hc : d.spec.template.spec.containers = c :: rest)
    (hl : d.labels = some lbls)
    (hw : ∀ i sel, ∃ p, env.waitForPodToRun i ns sel = Except.ok p)
    (hsc : ∀ nm' s, env.updateScale ns nm' s = Except.ok ())
    (hgone : env.podGone ns nm 0 = true)
    (hcrE : ∀ dbg, dbg.name = nm ++ "-debug" →
      ∃ e, env.createDeployment ns dbg = Except.error e) :
    ∃ dbg,
      (startDebug env ns nm alt).1.filter isCreateCall =
        [ApiCall.createDeployment ns dbg] ∧
      dbg.name = nm ++ "-debug" ∧
      ∃ msg, (startDebug env ns nm alt).2 = Outcome.error msg := by
  have hmut := mutateDeployment_eq d alt c rest lbls hc hl
  set M := mutatedOf d alt c rest lbls with hM
  obtain ⟨p0, hw0⟩ := hw 0 (selectorOf M)
  obtain ⟨e, hcrE'⟩ := hcrE (debugSpecOf M ns nm) rfl
  have hrun : startDebug env ns nm alt =
      (trHead ns nm M ++ [ApiCall.getPod ns nm] ++
         [ApiCall.createDeployment ns (debugSpecOf M ns nm)],
       Outcome.error ("Error creating deployment " ++
         goFormatDeployment (debugSpecOf M ns nm) ++ ". " ++ e ++ "\n")) := by
    simp [startDebug, hget, hmut, hw0,
      SetDeploymentScale_eq_ok env ns M.name 0 (hsc _ _),
      waitForPodDeletion_gone0 env ns nm hgone, hcrE', trHead]
  refine ⟨debugSpecOf M ns nm, ?_, rfl, ⟨_, by rw [hrun]⟩⟩
  rw [hrun]
  simp [trHead, isCreateCall]

theorem startDebug_rerun_name_conflict_witness :
    ∃ dbg,
      (startDebug conflictEnv "rook-ceph" "rook-ceph-mon-a" "").1.filter
        isCreateCall = [ApiCall.createDeployment "rook-ceph" dbg] ∧
      dbg.name = "rook-ceph-mon-a" ++ "-debug" ∧
      ∃ msg, (startDebug conflictEnv "rook-ceph" "rook-ceph-mon-a" "").2 =
        Outcome.error msg :=
  startDebug_rerun_name_conflict conflictEnv "rook-ceph" "rook-ceph-mon-a"
    "" sampleDeployment sampleContainer [] [("app", "rook-ceph-mon")]
    rfl rfl rfl
    (fun i sel => ⟨{ name := "rook-ceph-mon-a-564f", phase := "Running" },
      rfl⟩)
    (fun nm' s => rfl) (by decide)
    (fun dbg h =>
      ⟨"deployments.apps " ++ dbg.name ++ " already exists", rfl⟩)

/-- C2 (failing run, concrete): in a cluster where the mon deployment's pod
is `rook-ceph-mon-a-564f` (the name observed by the step-3 wait) and only a
pod named exactly `rook-ceph-mon-a` is reported not-found, the run
completes successfully, and the only pod Get the deletion wait ever issues
is for the *deployment* name `rook-ceph-mon-a` — the pod from step 3 is
never polled even though it was still present (`podGone ... 0 = false`).
The deletion wait therefore does not wait for the step-3 pod. -/
theorem startDebug_deletion_wait_polls_deployment_name :
    (startDebug happyEnv "rook-ceph" "rook-ceph-mon-a" "").2 =
      Outcome.ok ∧
    (startDebug happyEnv "rook-ceph" "rook-ceph-mon-a" "").1.filter
      isPodGetCall = [ApiCall.getPod "rook-ceph" "rook-ceph-mon-a"] ∧
    happyEnv.waitForPodToRun 0 "rook-ceph"
        "ceph_daemon_type=mon,ceph_daemon_id=a" =
      Except.ok { name := "rook-ceph-mon-a-564f", phase := "Running" } ∧
    happyEnv.podGone "rook-ceph" "rook-ceph-mon-a-564f" 0 = false ∧
    ("rook-ceph-mon-a-564f" : String) ≠ "rook-ceph-mon-a" :=
  ⟨by decide, by decide, rfl, by decide, by decide⟩

/-- C10: with at least one container in the fetched deployment's pod
template and a non-nil label map, no Go panic is reachable, and any
deployment the run creates has exactly the mutated first container followed
by the untouched remaining containers. -/
theorem no_create_in_delWait (env : ApiEnv) (ns nm : String)
    (trW : List ApiCall) (x : Except String Unit)
    (hW : waitForPodDeletion env ns nm = (trW, x))
    (ns' : String) (dbg : Deployment) :
    ApiCall.createDeployment ns' dbg ∉ trW := by
  intro hmem
  have h := waitForPodDeletion_mem env ns nm
    (ApiCall.createDeployment ns' dbg) (by rw [hW]; exact hmem)
  rcases h with h | h <;> simp at h

theorem startDebug_mutates_only_first_container (env : ApiEnv)
    (ns nm alt : String) (d : Deployment) (c : Container)
    (rest : List Container) (lbls : List (String × String))
    (hget : env.getDeployment ns nm = Except.ok d)
    (hc : d.spec.template.spec.containers = c :: rest)
    (hl : d.labels = some lbls) :
    (startDebug env ns nm alt).2 ≠ Outcome.panic ∧
    ∀ ns' dbg,
      ApiCall.createDeployment ns' dbg ∈ (startDebug env ns nm alt).1 →
      dbg.spec.template.spec.containers = debugContainer c alt :: rest := by
  have hmut := mutateDeployment_eq d alt c rest lbls hc hl
  rcases startDebug_shape env ns nm alt with
    ⟨e, heq, hrun⟩ | ⟨d2, heq, hmut2, hrun⟩ |
    ⟨d2, d', e, heq, hmut2, hw0, hrun⟩ |
    ⟨d2, d', p0, e, heq, hmut2, hw0, hs0, hrun⟩ |
    ⟨d2, d', p0, trW, e, heq, hmut2, hw0, hs0, hW, hrun⟩ |
    ⟨d2, d', p0, trW, e, heq, hmut2, hw0, hs0, hW, hcr, hrun⟩ |
    ⟨d2, d', p0, trW, r, e, heq, hmut2, hw0, hs0, hW, hcr, hs1, hrun⟩ |
    ⟨d2, d', p0, trW, r, e, heq, hmut2, hw0, hs0, hW, hcr, hs1, hw1,
      hrun⟩ |
    ⟨d2, d', p0, trW, r, p1, heq, hmut2, hw0, hs0, hW, hcr, hs1, hw1,
      hrun⟩
  · rw [hget] at heq; simp at heq
  · rw [hget] at heq
    injection heq with h2
    subst h2
    rw [hmut] at hmut2
    simp at hmut2
  · rw [hget] at heq
    injection heq with h2
    subst h2
    rw [hmut] at hmut2
    injection hmut2 with h3
    subst h3
    rw [hrun]
    refine ⟨by simp, ?_⟩
    intro ns' dbg hmem
    simp at hmem
  · rw [hget] at heq
    injection heq with h2
    subst h2
    rw [hmut] at hmut2
    injection hmut2 with h3
    subst h3
    rw [hrun]
    refine ⟨by simp, ?_⟩
    intro ns' dbg hmem
    simp [trHead] at hmem
  · rw [hget] at heq
    injection heq with h2
    subst h2
    rw [hmut] at hmut2
    injection hmut2 with h3
    subst h3
    rw [hrun]
    refine ⟨by simp, ?_⟩
    intro ns' dbg hmem
    have hno := no_create_in_delWait env ns nm trW _ hW ns' dbg
    simp [trHead, hno] at hmem
  · rw [hget] at heq
    injection heq with h2
    subst h2
    rw [hmut] at hmut2
    injection hmut2 with h3
    subst h3
    rw [hrun]
    refine ⟨by simp, ?_⟩
    intro ns' dbg hmem
    have hno := no_create_in_delWait env ns nm trW _ hW ns' dbg
    simp [trHead, hno] at hmem
    obtain ⟨h1, h2⟩ := hmem
    subst h2
    simp [debugSpecOf, mutatedOf]
  · rw [hget] at heq
    injection heq with h2
    subst h2
    rw [hmut] at hmut2
    injection hmut2 with h3
    subst h3
    rw [hrun]
    refine ⟨by simp, ?_⟩
    intro ns' dbg hmem
    have hno := no_create_in_delWait env ns nm trW _ hW ns' dbg
    simp [trHead, hno] at hmem
    obtain ⟨h1, h2⟩ := hmem
    subst h2
    simp [debugSpecOf, mutatedOf]
  · rw [hget] at heq
    injection heq with h2
    subst h2
    rw [hmut] at hmut2
    injection hmut2 with h3
    subst h3
    rw [hrun]
    refine ⟨by simp, ?_⟩
    intro ns' dbg hmem
    have hno := no_create_in_delWait env ns nm trW _ hW ns' dbg
    simp [trHead, hno] at hmem
    obtain ⟨h1, h2⟩ := hmem
    subst h2
    simp [debugSpecOf, mutatedOf]
  · rw [hget] at heq
    injection heq with h2
    subst h2
    rw [hmut] at hmut2
    injection hmut2 with h3
    subst h3
    rw [hrun]
    refine ⟨by simp, ?_⟩
    intro ns' dbg hmem
    have hno := no_create_in_delWait env ns nm trW _ hW ns' dbg
    simp [trHead, hno] at hmem
    obtain ⟨h1, h2⟩ := hmem
    subst h2
    simp [debugSpecOf, mutatedOf]

theorem startDebug_mutates_only_first_container_witness :
    sampleDeployment.spec.template.spec.containers =
      sampleContainer :: [] ∧
    sampleDeployment.labels = some [("app", "rook-ceph-mon")] ∧
    (startDebug happyEnv "rook-ceph" "rook-ceph-mon-a" "other").2 ≠
      Outcome.panic :=
  ⟨rfl, rfl,
   (startDebug_mutates_only_first_container happyEnv "rook-ceph"
     "rook-ceph-mon-a" "other" sampleDeployment sampleContainer []
     [("app", "rook-ceph-mon")] rfl rfl rfl).1⟩

theorem no_scale_in_delWait (env : ApiEnv) (ns nm : String)
    (trW : List ApiCall) (x : Except String Unit)
    (hW : waitForPodDeletion env ns nm = (trW, x))
    (ns' nm' : String) (s : Scale) :
    ApiCall.updateScale ns' nm' s ∉ trW := by
  intro hmem
  have h := waitForPodDeletion_mem env ns nm
    (ApiCall.updateScale ns' nm' s) (by rw [hW]; exact hmem)
  rcases h with h | h <;> simp at h

theorem delWait_stepIndex (env : ApiEnv) (ns nm : String)
    (trW : List ApiCall) (x : Except String Unit)
    (hW : waitForPodDeletion env ns nm = (trW, x)) :
    ∀ e ∈ trW, stepIndex e = 3 := by
  intro e he
  have h := waitForPodDeletion_mem env ns nm e (by rw [hW]; exact he)
  rcases h with rfl | rfl <;> rfl

theorem pairwise_trHead (ns nm : String) (d' : Deployment) :
    List.Pairwise (fun a b => stepIndex a ≤ stepIndex b)
      (trHead ns nm d') := by
  simp [trHead, List.pairwise_cons, stepIndex, scaleObj, int32ofInt_zero]

theorem trHead_stepIndex_le (ns nm : String) (d' : Deployment) :
    ∀ a ∈ trHead ns nm d', stepIndex a ≤ 3 := by
  intro a ha
  simp [trHead] at ha
  rcases ha with rfl | rfl | rfl <;>
    simp [stepIndex, scaleObj, int32ofInt_zero]

theorem pairwise_run_trace (env : ApiEnv) (ns nm : String)
    (d' : Deployment) (trW tail : List ApiCall) (x : Except String Unit)
    (hW : waitForPodDeletion env ns nm = (trW, x))
    (htail : List.Pairwise (fun a b => stepIndex a ≤ stepIndex b) tail)
    (htail4 : ∀ b ∈ tail, 4 ≤ stepIndex b) :
    List.Pairwise (fun a b => stepIndex a ≤ stepIndex b)
      (trHead ns nm d' ++ trW ++ tail) := by
  have hstep3 := delWait_stepIndex env ns nm trW x hW
  rw [List.pairwise_append]
  refine ⟨?_, htail, ?_⟩
  · rw [List.pairwise_append]
    refine ⟨pairwise_trHead ns nm d',
      List.pairwise_of_forall_mem_list
        (fun a ha b hb => by rw [hstep3 a ha, hstep3 b hb]),
      fun a ha b hb => ?_⟩
    rw [hstep3 b hb]
    exact trHead_stepIndex_le ns nm d' a ha
  · intro a ha b hb
    have h4 := htail4 b hb
    rcases List.mem_append.mp ha with ha' | ha'
    · have h3 := trHead_stepIndex_le ns nm d' a ha'
      omega
    · have h3 := hstep3 a ha'
      omega

/-- C7: every run's trace is ordered by the workflow's fixed step order,
and each disruptive call is gated on the success of the step before it:
a scale-to-0 update appears only together with a successful step-3 wait
that observed a Running pod, a create appears only after the deletion wait
returned success (and the scale-to-0 succeeded), and a scale-to-1 appears
only after the create succeeded.  An error at any step therefore cuts the
trace off at that step. -/
theorem startDebug_fixed_step_order (env : ApiEnv) (ns nm alt : String)
    (hsound : WaitForPodToRunSound env ns) :
    List.Pairwise (fun a b => stepIndex a ≤ stepIndex b)
      (startDebug env ns nm alt).1 ∧
    (∀ ns' nm' s,
      ApiCall.updateScale ns' nm' s ∈ (startDebug env ns nm alt).1 →
      s.replicas = 0 →
      ∃ sel p,
        ApiCall.waitForPodToRun 0 ns sel ∈ (startDebug env ns nm alt).1 ∧
        env.waitForPodToRun 0 ns sel = Except.ok p ∧
        p.phase = "Running") ∧
    (∀ ns' dbg,
      ApiCall.createDeployment ns' dbg ∈ (startDebug env ns nm alt).1 →
      (waitForPodDeletion env ns nm).2 = Except.ok () ∧
      ∃ nm' s,
        ApiCall.updateScale ns nm' s ∈ (startDebug env ns nm alt).1 ∧
        s.replicas = 0 ∧ env.updateScale ns nm' s = Except.ok ()) ∧
    (∀ ns' nm' s,
      ApiCall.updateScale ns' nm' s ∈ (startDebug env ns nm alt).1 →
      s.replicas = 1 →
      ∃ dbg r,
        ApiCall.createDeployment ns dbg ∈ (startDebug env ns nm alt).1 ∧
        env.createDeployment ns dbg = Except.ok r ∧ r.name = nm') := by
  rcases startDebug_shape env ns nm alt with
    ⟨e, heq, heqR⟩ | ⟨d2, heq, hmut2, heqR⟩ |
    ⟨d2, d', e, heq, hmut2, hw0, heqR⟩ |
    ⟨d2, d', p0, e, heq, hmut2, hw0, hs0, heqR⟩ |
    ⟨d2, d', p0, trW, e, heq, hmut2, hw0, hs0, hW, heqR⟩ |
    ⟨d2, d', p0, trW, e, heq, hmut2, hw0, hs0, hW, hcr, heqR⟩ |
    ⟨d2, d', p0, trW, r, e, heq, hmut2, hw0, hs0, hW, hcr, hs1, heqR⟩ |
    ⟨d2, d', p0, trW, r, e, heq, hmut2, hw0, hs0, hW, hcr, hs1, hw1,
      heqR⟩ |
    ⟨d2, d', p0, trW, r, p1, heq, hmut2, hw0, hs0, hW, hcr, hs1, hw1,
      heqR⟩ <;>
    rw [heqR]
  · refine ⟨by simp, ?_, ?_, ?_⟩
    · intro ns' nm' s hmem
      simp at hmem
    · intro ns' dbg hmem
      simp at hmem
    · intro ns' nm' s hmem
      simp at hmem
  · refine ⟨by simp, ?_, ?_, ?_⟩
    · intro ns' nm' s hmem
      simp at hmem
    · intro ns' dbg hmem
      simp at hmem
    · intro ns' nm' s hmem
      simp at hmem
  · refine ⟨?_, ?_, ?_, ?_⟩
    · simp [List.pairwise_cons, stepIndex]
    · intro ns' nm' s hmem
      simp at hmem
    · intro ns' dbg hmem
      simp at hmem
    · intro ns' nm' s hmem
      simp at hmem
  · refine ⟨pairwise_trHead ns nm d', ?_, ?_, ?_⟩
    · intro ns' nm' s hmem hrep
      exact ⟨selectorOf d', p0, by simp [trHead], hw0, hsound 0 _ _ hw0⟩
    · intro ns' dbg hmem
      simp [trHead] at hmem
    · intro ns' nm' s hmem hrep
      simp [trHead] at hmem
      obtain ⟨h1, h2, h3⟩ := hmem
      subst h3
      simp [scaleObj, int32ofInt_zero] at hrep
  · refine ⟨?_, ?_, ?_, ?_⟩
    · have h := pairwise_run_trace env ns nm d' trW [] _ hW
        (by simp) (by simp)
      simpa using h
    · intro ns' nm' s hmem hrep
      exact ⟨selectorOf d', p0, by simp [trHead], hw0, hsound 0 _ _ hw0⟩
    · intro ns' dbg hmem
      have hno := no_create_in_delWait env ns nm trW _ hW ns' dbg
      simp [trHead, hno] at hmem
    · intro ns' nm' s hmem hrep
      have hnos := no_scale_in_delWait env ns nm trW _ hW ns' nm' s
      simp [trHead, hnos] at hmem
      obtain ⟨h1, h2, h3⟩ := hmem
      subst h3
      simp [scaleObj, int32ofInt_zero] at hrep
  · refine ⟨?_, ?_, ?_, ?_⟩
    · exact pairwise_run_trace env ns nm d' trW _ _ hW (by simp)
        (by intro b hb; simp at hb; subst hb; simp [stepIndex])
    · intro ns' nm' s hmem hrep
      exact ⟨selectorOf d', p0, by simp [trHead], hw0, hsound 0 _ _ hw0⟩
    · intro ns' dbg hmem
      exact ⟨by rw [hW], d'.name, scaleObj ns d'.name 0,
        by simp [trHead], by simp [scaleObj, int32ofInt_zero], hs0⟩
    · intro ns' nm' s hmem hrep
      have hnos := no_scale_in_delWait env ns nm trW _ hW ns' nm' s
      simp [trHead, hnos] at hmem
      obtain ⟨h1, h2, h3⟩ := hmem
      subst h3
      simp [scaleObj, int32ofInt_zero] at hrep
  · refine ⟨?_, ?_, ?_, ?_⟩
    · exact pairwise_run_trace env ns nm d' trW _ _ hW
        (by simp [List.pairwise_cons, stepIndex, scaleObj, int32ofInt_one])
        (by intro b hb; simp at hb
            rcases hb with rfl | rfl <;>
              simp [stepIndex, scaleObj, int32ofInt_one])
    · intro ns' nm' s hmem hrep
      exact ⟨selectorOf d', p0, by simp [trHead], hw0, hsound 0 _ _ hw0⟩
    · intro ns' dbg hmem
      exact ⟨by rw [hW], d'.name, scaleObj ns d'.name 0,
        by simp [trHead], by simp [scaleObj, int32ofInt_zero], hs0⟩
    · intro ns' nm' s hmem hrep
      have hnos := no_scale_in_delWait env ns nm trW _ hW ns' nm' s
      simp [trHead, hnos] at hmem
      rcases hmem with ⟨h1, h2, h3⟩ | ⟨h1, h2, h3⟩
      · subst h3
        simp [scaleObj, int32ofInt_zero] at hrep
      · subst h3
        exact ⟨debugSpecOf d' ns nm, r, by simp [trHead], hcr, h2.symm⟩
  · refine ⟨?_, ?_, ?_, ?_⟩
    · exact pairwise_run_trace env ns nm d' trW _ _ hW
        (by simp [List.pairwise_cons, stepIndex, scaleObj, int32ofInt_one])
        (by intro b hb; simp at hb
            rcases hb with rfl | rfl | rfl <;>
              simp [stepIndex, scaleObj, int32ofInt_one])
    · intro ns' nm' s hmem hrep
      exact ⟨selectorOf d', p0, by simp [trHead], hw0, hsound 0 _ _ hw0⟩
    · intro ns' dbg hmem
      exact ⟨by rw [hW], d'.name, scaleObj ns d'.name 0,
        by simp [trHead], by simp [scaleObj, int32ofInt_zero], hs0⟩
    · intro ns' nm' s hmem hrep
      have hnos := no_scale_in_delWait env ns nm trW _ hW ns' nm' s
      simp [trHead, hnos] at hmem
      rcases hmem with ⟨h1, h2, h3⟩ | ⟨h1, h2, h3⟩
      · subst h3
        simp [scaleObj, int32ofInt_zero] at hrep
      · subst h3
        exact ⟨debugSpecOf d' ns nm, r, by simp [trHead], hcr, h2.symm⟩
  · refine ⟨?_, ?_, ?_, ?_⟩
    · exact pairwise_run_trace env ns nm d' trW _ _ hW
        (by simp [List.pairwise_cons, stepIndex, scaleObj, int32ofInt_one])
        (by intro b hb; simp at hb
            rcases hb with rfl | rfl | rfl <;>
              simp [stepIndex, scaleObj, int32ofInt_one])
    · intro ns' nm' s hmem hrep
      exact ⟨selectorOf d', p0, by simp [trHead], hw0, hsound 0 _ _ hw0⟩
    · intro ns' dbg hmem
      exact ⟨by rw [hW], d'.name, scaleObj ns d'.name 0,
        by simp [trHead], by simp [scaleObj, int32ofInt_zero], hs0⟩
    · intro ns' nm' s hmem hrep
      have hnos := no_scale_in_delWait env ns nm trW _ hW ns' nm' s
      simp [trHead, hnos] at hmem
      rcases hmem with ⟨h1, h2, h3⟩ | ⟨h1, h2, h3⟩
      · subst h3
        simp [scaleObj, int32ofInt_zero] at hrep
      · subst h3
        exact ⟨debugSpecOf d' ns nm, r, by simp [trHead], hcr, h2.symm⟩

theorem startDebug_fixed_step_order_witness :
    List.Pairwise (fun a b => stepIndex a ≤ stepIndex b)
      (startDebug happyEnv "rook-ceph" "rook-ceph-mon-a" "").1 :=
  (startDebug_fixed_step_order happyEnv "rook-ceph" "rook-ceph-mon-a" ""
    (fun i sel p h => by injection h with h1; rw [← h1])).1

end RookDebug
